import Mathlib

/-!
Verification of the anchr webhook relay.

The development shallowly embeds the core of the repository:
the shared utilities (sanitizeHeaders, createWebhookEvent), the ingestion
gateway (WebhookReceiver.handleWebhook), the broadcast hub
(WebSocketServer.broadcastEvent), the subscriber session's connection
handlers (WebSocketClient), the subscriber-side endpoint filter
(AnchrCLI.handleEvent) and the forwarding engine (EventForwarder).

Effectful inputs of the source (uuid generation, wall-clock time, the HTTP
transport, the socket registry) become explicit parameters; sequential
effectful code becomes a pure function returning the ordered list of its
observable actions.
-/

namespace Anchr

/-- The request body, opaque to the pipeline.  The constructor
`unserializable` models a value on which the JavaScript JSON.stringify
call in the receiver's logging statement throws (the only throw site
inside the try block of handleWebhook). -/
inductive Body where
  | json (s : String)
  | unserializable
deriving DecidableEq, Repr

/-- Models JSON.stringify as used inside handleWebhook: returns the
serialized text, or none when it throws. -/
def stringifyBody : Body → Option String
  | .json s => some s
  | .unserializable => none

/-- The WebhookEvent record of src/shared/types.ts.  A Date is a Nat
(milliseconds); a JavaScript string-to-string record is an association
list with the keys unique, in object iteration order. -/
structure WebhookEvent where
  id : String
  timestamp : Nat
  source : String
  endpoint : String
  headers : List (String × String)
  body : Body
  method : String
  ip : String
  userAgent : Option String
deriving DecidableEq, Repr

/-- createWebhookEvent of src/shared/utils.ts.  The uuid and the capture
time are effects in the source and are passed in as newId and now. -/
def createWebhookEvent (newId : String) (now : Nat) (source : String)
    (endpoint : String) (headers : List (String × String)) (body : Body)
    (method : String) (ip : String) (userAgent : Option String) :
    WebhookEvent :=
  { id := newId
    timestamp := now
    source := source
    endpoint := endpoint
    headers := headers
    body := body
    method := method
    ip := ip
    userAgent := userAgent }

/-- The sensitiveHeaders list of sanitizeHeaders in src/shared/utils.ts. -/
def sensitiveHeaders : List String :=
  ["authorization", "cookie", "x-api-key", "x-auth-token"]

/-- Models the JavaScript s.toLowerCase() call, lowercasing each
character. -/
def jsToLower (s : String) : String :=
  String.mk (s.data.map Char.toLower)

/-- sanitizeHeaders of src/shared/utils.ts: iterates the entries; an entry
whose lowercased key is sensitive gets the fixed marker, any other entry
is copied verbatim. -/
def sanitizeHeaders : List (String × String) → List (String × String)
  | [] => []
  | (k, v) :: rest =>
    (k, if sensitiveHeaders.contains (jsToLower k) then "[REDACTED]" else v)
      :: sanitizeHeaders rest

/-- Models the JavaScript s.startsWith(p) test: p's characters are an
initial segment of s's characters. -/
def jsStartsWith (s p : String) : Bool :=
  p.data.isPrefixOf s.data

/-- The shouldProcess test of AnchrCLI.handleEvent in src/cli/index.ts:
some configured endpoint equals the event's endpoint or is a literal
string prefix of it. -/
def shouldProcess (subscribeEndpoints : List String) (endpoint : String) :
    Bool :=
  subscribeEndpoints.any (fun e => endpoint == e || jsStartsWith endpoint e)

/-- The endpoint-filter decision of AnchrCLI.handleEvent: when the
configured list is non-empty the event is processed only if shouldProcess
holds; with an empty list every event is processed. -/
def handleEventAccepts (subscribeEndpoints : List String)
    (endpoint : String) : Bool :=
  if subscribeEndpoints.length > 0 then
    shouldProcess subscribeEndpoints endpoint
  else
    true

/-- C2: header sanitization keeps the entry count, redacts exactly the
headers whose lowercased name is sensitive, and keeps every other entry
verbatim. -/
theorem sanitizeHeaders_spec (hs : List (String × String)) :
    (sanitizeHeaders hs).length = hs.length ∧
    ∀ i : Nat, (sanitizeHeaders hs).get? i =
      (hs.get? i).map (fun kv =>
        (kv.1, if sensitiveHeaders.contains (jsToLower kv.1) then "[REDACTED]"
               else kv.2)) := by
  induction hs with
  | nil => exact ⟨rfl, fun i => rfl⟩
  | cons kv rest ih =>
    obtain ⟨k, v⟩ := kv
    refine ⟨by simpa [sanitizeHeaders] using ih.1, fun i => ?_⟩
    cases i with
    | zero => rfl
    | succ j => simpa [sanitizeHeaders] using ih.2 j

/-- C1: with no configured subscribed endpoints every event is accepted;
with a non-empty list an event is accepted iff its endpoint equals or
literally extends one configured entry; the four documented instances for
the configuration github plus stripe. -/
theorem handleEvent_endpoint_filter_spec :
    (∀ ep : String, handleEventAccepts [] ep = true) ∧
    (∀ subs : List String, ∀ ep : String, subs ≠ [] →
      (handleEventAccepts subs ep = true ↔
        ∃ e, e ∈ subs ∧ (ep = e ∨ jsStartsWith ep e = true))) ∧
    handleEventAccepts ["/github", "/stripe"] "/github" = true ∧
    handleEventAccepts ["/github", "/stripe"] "/stripe/extra" = true ∧
    handleEventAccepts ["/github", "/stripe"] "/other" = false ∧
    handleEventAccepts ["/github", "/stripe"] "/api/users" = false := by
  refine ⟨fun ep => rfl, fun subs ep hne => ?_, by decide, by decide,
    by decide, by decide⟩
  have hlen : subs.length > 0 := List.length_pos.mpr hne
  simp only [handleEventAccepts, if_pos hlen, shouldProcess,
    List.any_eq_true, Bool.or_eq_true, beq_iff_eq]

/-- Witness for C1: instantiates the filter equivalence on a concrete
non-empty configuration. -/
theorem handleEvent_endpoint_filter_witness :
    ∃ e, e ∈ ["/api"] ∧ ("/api/users" = e ∨ jsStartsWith "/api/users" e = true) :=
  (handleEvent_endpoint_filter_spec.2.1 ["/api"] "/api/users"
    (by decide)).mp (by decide)

/-- The ForwardResult record of src/shared/types.ts. -/
structure ForwardResult where
  success : Bool
  endpoint : String
  statusCode : Option Nat
  error : Option String
  responseTime : Option Nat
deriving DecidableEq, Repr

/-- Outcome of one HTTP exchange with a downstream target, an input of
the forwarding engine: the exchange either completed with some HTTP
status after the given elapsed milliseconds, or the transport itself
failed (timeout, connection error) with an error message. -/
inductive TransportOutcome where
  | completed (status : Nat) (elapsed : Nat)
  | failed (message : String) (elapsed : Nat)
deriving DecidableEq, Repr

/-- What an awaited axios.post call yields: a resolved response or a
rejected promise carrying an error message. -/
inductive AxiosResult where
  | resolved (status : Nat) (elapsed : Nat)
  | rejected (message : String) (elapsed : Nat)
deriving DecidableEq, Repr

/-- Models axios.post as called by EventForwarder.forwardToEndpoint,
which passes no validateStatus option: per the documented axios default,
a completed response with a 2xx status resolves, a completed response
with any other status rejects with the message Request failed with
status code N, and a transport failure rejects with its own message. -/
def axiosPost (t : TransportOutcome) : AxiosResult :=
  match t with
  | .completed s e =>
    if 200 ≤ s ∧ s < 300 then .resolved s e
    else .rejected ("Request failed with status code " ++ toString s) e
  | .failed m e => .rejected m e

/-- EventForwarder.forwardToEndpoint of src/cli/index.ts: awaits the
axios call for the target; on resolution returns a successful
ForwardResult carrying the response status, on rejection (caught in the
catch block) a failed one carrying the error message.  The network is an
oracle net from target URL to the outcome of its one HTTP exchange. -/
def forwardToEndpoint (net : String → TransportOutcome)
    (event : WebhookEvent) (endpoint : String) : ForwardResult :=
  match axiosPost (net endpoint) with
  | .resolved status rt =>
    { success := true
      endpoint := endpoint
      statusCode := some status
      error := none
      responseTime := some rt }
  | .rejected msg rt =>
    { success := false
      endpoint := endpoint
      statusCode := none
      error := some msg
      responseTime := some rt }

/-- EventForwarder.forwardEvent of src/cli/index.ts: iterates the
configured targets in list order, awaiting forwardToEndpoint for each
and pushing its result. -/
def forwardEvent (net : String → TransportOutcome)
    (endpoints : List String) (event : WebhookEvent) : List ForwardResult :=
  match endpoints with
  | [] => []
  | e :: rest => forwardToEndpoint net event e :: forwardEvent net rest event

/-- EventForwarder.addEndpoint of src/cli/index.ts: pushes the target
only when it is not already in the list. -/
def addEndpoint (endpoints : List String) (endpoint : String) :
    List String :=
  if endpoints.contains endpoint then endpoints else endpoints ++ [endpoint]

/-- EventForwarder.removeEndpoint of src/cli/index.ts: removes the first
occurrence of the target when present (indexOf then splice). -/
def removeEndpoint (endpoints : List String) (endpoint : String) :
    List String :=
  if endpoints.contains endpoint then endpoints.erase endpoint else endpoints

/-- C3: forwardEvent returns exactly one ForwardResult per configured
target; the result at each position is the outcome of forwarding to the
target at that same position, determined solely by that target's own
exchange, so a failure on one target leaves every other target's result
intact; in particular each result names its own target in list order. -/
theorem forwardEvent_results_spec (net : String → TransportOutcome)
    (endpoints : List String) (event : WebhookEvent) :
    (forwardEvent net endpoints event).length = endpoints.length ∧
    (∀ i : Nat, (forwardEvent net endpoints event).get? i =
      (endpoints.get? i).map (forwardToEndpoint net event)) ∧
    (∀ i : Nat, ((forwardEvent net endpoints event).get? i).map
      ForwardResult.endpoint = endpoints.get? i) := by
  induction endpoints with
  | nil =>
    refine ⟨rfl, fun i => rfl, fun i => rfl⟩
  | cons e rest ih =>
    refine ⟨by simpa [forwardEvent] using ih.1, fun i => ?_, fun i => ?_⟩
    · cases i with
      | zero => rfl
      | succ j => simpa [forwardEvent] using ih.2.1 j
    · cases i with
      | zero => cases h : axiosPost (net e) <;>
          simp [forwardEvent, forwardToEndpoint, h]
      | succ j => simpa [forwardEvent] using ih.2.2 j

/-- A fixed event used to instantiate the forwarding engine theorems. -/
def sampleEvent : WebhookEvent :=
  { id := "ev-1"
    timestamp := 100
    source := "8.8.8.8"
    endpoint := "/github"
    headers := [("content-type", "application/json")]
    body := .json "x"
    method := "POST"
    ip := "8.8.8.8"
    userAgent := none }

/-- A network oracle on which every exchange completes with HTTP 404. -/
def net404 : String → TransportOutcome :=
  fun _ => .completed 404 12

/-- C4 counterexample: an exchange that completes with the non-2xx
status 404 does not surface that status in the ForwardResult's
status-code field; axios's default validation rejects it, so the catch
block records it as a failure with an error message and no status code. -/
theorem forwardToEndpoint_non2xx_counterexample :
    net404 "http://localhost:4000" = .completed 404 12 ∧
    (forwardToEndpoint net404 sampleEvent "http://localhost:4000").statusCode
      ≠ some 404 ∧
    (forwardToEndpoint net404 sampleEvent "http://localhost:4000").statusCode
      = none ∧
    (forwardToEndpoint net404 sampleEvent "http://localhost:4000").success
      = false ∧
    (forwardToEndpoint net404 sampleEvent "http://localhost:4000").error
      = some "Request failed with status code 404" := by
  refine ⟨rfl, ?_, rfl, rfl, rfl⟩
  decide

/-- C4 amended: a completed 2xx response yields a successful ForwardResult
carrying its status code; a completed non-2xx response is rejected by the
axios default validation and recorded exactly like a transport failure,
with success false, the axios error message and no status code; a
transport failure is recorded with its own message. -/
theorem forwardToEndpoint_outcome_spec (net : String → TransportOutcome)
    (event : WebhookEvent) (ep : String) (s rt : Nat) (m : String) :
    (net ep = .completed s rt → 200 ≤ s → s < 300 →
      forwardToEndpoint net event ep =
        { success := true, endpoint := ep, statusCode := some s,
          error := none, responseTime := some rt }) ∧
    (net ep = .completed s rt → ¬ (200 ≤ s ∧ s < 300) →
      forwardToEndpoint net event ep =
        { success := false, endpoint := ep, statusCode := none,
          error := some ("Request failed with status code " ++ toString s),
          responseTime := some rt }) ∧
    (net ep = .failed m rt →
      forwardToEndpoint net event ep =
        { success := false, endpoint := ep, statusCode := none,
          error := some m, responseTime := some rt }) := by
  refine ⟨fun h hlo hhi => ?_, fun h hns => ?_, fun h => ?_⟩
  · simp [forwardToEndpoint, axiosPost, h, if_pos (And.intro hlo hhi)]
  · simp [forwardToEndpoint, axiosPost, h, if_neg hns]
  · simp [forwardToEndpoint, axiosPost, h]

/-- Witness for C4's amended theorem: a completed 201 response at a
concrete target produces the successful result with status code 201. -/
theorem forwardToEndpoint_outcome_witness :
    forwardToEndpoint (fun _ => .completed 201 7) sampleEvent
      "http://localhost:5000" =
      { success := true, endpoint := "http://localhost:5000",
        statusCode := some 201, error := none, responseTime := some 7 } :=
  (forwardToEndpoint_outcome_spec (fun _ => .completed 201 7) sampleEvent
    "http://localhost:5000" 201 7 "").1 rfl (by decide) (by decide)

/-- C9: adding a target already in the list leaves the list unchanged;
adding a fresh target appends it at the end. -/
theorem addEndpoint_spec (endpoints : List String) (endpoint : String) :
    (endpoint ∈ endpoints → addEndpoint endpoints endpoint = endpoints) ∧
    (endpoint ∉ endpoints →
      addEndpoint endpoints endpoint = endpoints ++ [endpoint]) := by
  constructor
  · intro hmem
    simp [addEndpoint, hmem]
  · intro hmem
    simp [addEndpoint, hmem]

/-- Witness for C9: a duplicate add on a concrete list is a no-op. -/
theorem addEndpoint_witness :
    addEndpoint ["http://a", "http://b"] "http://a" = ["http://a", "http://b"] :=
  (addEndpoint_spec ["http://a", "http://b"] "http://a").1 (by decide)

/-- Models the JavaScript expression a || b on an optional string: an
absent value and the empty string are falsy and fall through to b. -/
def jsOr (a : Option String) (b : String) : String :=
  match a with
  | some s => if s = "" then b else s
  | none => b

/-- The source resolution of WebhookReceiver.handleWebhook in
src/server/websocket.ts: the X-Forwarded-For header, else the peer
address, else the literal unknown. -/
def resolveSource (forwardedFor peerIp : Option String) : String :=
  jsOr forwardedFor (jsOr peerIp "unknown")

/-- The inbound HTTP request as seen by handleWebhook: the
X-Forwarded-For header, the peer address (req.ip may be absent), the
User-Agent header, the path, the method, the raw headers and the parsed
body. -/
structure Req where
  forwardedFor : Option String
  peerIp : Option String
  userAgent : Option String
  path : String
  method : String
  headers : List (String × String)
  body : Body
deriving DecidableEq, Repr

/-- One observable action of handleWebhook, in program order: an HTTP
response (status, success flag, event id and timestamp when present) or
an invocation of the registered event callback. -/
inductive Action where
  | respond (status : Nat) (success : Bool) (eventId : Option String)
      (timestamp : Option Nat)
  | callback (e : WebhookEvent)
deriving DecidableEq, Repr

/-- WebhookReceiver.handleWebhook of src/server/websocket.ts as the
ordered list of its observable actions.  Inside the try block it resolves
the source, sanitizes the headers, constructs the Event (passing the
resolved source as both source and ip), logs (the JSON.stringify on the
body is the one fallible step), responds 200 with the event id and
timestamp, then invokes the callback; if the stringify throws, the catch
block responds 500 and the callback is never reached. -/
def handleWebhook (newId : String) (now : Nat) (req : Req) : List Action :=
  let source := resolveSource req.forwardedFor req.peerIp
  let headers := sanitizeHeaders req.headers
  let event := createWebhookEvent newId now source req.path headers
    req.body req.method source req.userAgent
  match stringifyBody req.body with
  | some _ =>
    [.respond 200 true (some event.id) (some event.timestamp),
     .callback event]
  | none => [.respond 500 false none none]

/-- Any callback action in a handleWebhook trace sits at index 1, carries
exactly the constructed event, and only occurs when the body serialized. -/
theorem handleWebhook_callback_elim (newId : String) (now : Nat)
    (req : Req) (ev : WebhookEvent) (i : Nat)
    (h : (handleWebhook newId now req).get? i = some (.callback ev)) :
    i = 1 ∧
    ev = createWebhookEvent newId now
      (resolveSource req.forwardedFor req.peerIp) req.path
      (sanitizeHeaders req.headers) req.body req.method
      (resolveSource req.forwardedFor req.peerIp) req.userAgent ∧
    stringifyBody req.body ≠ none := by
  cases hs : stringifyBody req.body with
  | none =>
    simp only [handleWebhook, hs] at h
    cases i with
    | zero => simp at h
    | succ j => cases j <;> simp at h
  | some s =>
    simp only [handleWebhook, hs] at h
    cases i with
    | zero => simp at h
    | succ j =>
      cases j with
      | zero =>
        simp only [List.get?] at h
        refine ⟨rfl, ?_, by simp [hs]⟩
        simp only [Option.some.injEq, Action.callback.injEq] at h
        exact h.symm
      | succ k => simp at h

/-- C5: in every handleWebhook trace, any invocation of the registered
callback occurs strictly after position 0, and position 0 is the 200
acknowledgment carrying that event's id and timestamp: the response is
sent before the callback is invoked, never after. -/
theorem handleWebhook_response_before_callback (newId : String)
    (now : Nat) (req : Req) (ev : WebhookEvent) (i : Nat)
    (h : (handleWebhook newId now req).get? i = some (.callback ev)) :
    0 < i ∧
    (handleWebhook newId now req).get? 0 =
      some (.respond 200 true (some ev.id) (some ev.timestamp)) := by
  obtain ⟨hi, hev, hser⟩ := handleWebhook_callback_elim newId now req ev i h
  subst hi
  obtain ⟨s, hs⟩ := Option.ne_none_iff_exists'.mp hser
  subst hev
  exact ⟨Nat.zero_lt_one, by simp [handleWebhook, hs, createWebhookEvent]⟩

/-- A concrete well-formed request used to instantiate the gateway
theorems. -/
def demoReq : Req :=
  { forwardedFor := some "9.9.9.9"
    peerIp := some "1.1.1.1"
    userAgent := none
    path := "/github"
    method := "POST"
    headers := [("x-api-key", "k")]
    body := .json "x" }

/-- The event handleWebhook constructs for demoReq. -/
def demoEv : WebhookEvent :=
  createWebhookEvent "id1" 5 "9.9.9.9" "/github"
    [("x-api-key", "[REDACTED]")] (.json "x") "POST" "9.9.9.9" none

/-- Witness for C5: on demoReq the callback occurs at index 1 and the 200
acknowledgment sits at index 0. -/
theorem handleWebhook_response_before_callback_witness :
    0 < 1 ∧
    (handleWebhook "id1" 5 demoReq).get? 0 =
      some (.respond 200 true (some demoEv.id) (some demoEv.timestamp)) :=
  handleWebhook_response_before_callback "id1" 5 demoReq demoEv 1 (by decide)

/-- C6: when the body fails to serialize, handleWebhook's whole trace is
the single 500 response: no callback is invoked and no further response
or retry occurs. -/
theorem handleWebhook_failure_spec (newId : String) (now : Nat) (req : Req)
    (h : stringifyBody req.body = none) :
    handleWebhook newId now req = [.respond 500 false none none] := by
  simp [handleWebhook, h]

/-- A concrete request whose body fails to serialize. -/
def failReq : Req :=
  { forwardedFor := none
    peerIp := some "2.2.2.2"
    userAgent := some "curl"
    path := "/stripe"
    method := "POST"
    headers := []
    body := .unserializable }

/-- Witness for C6: the failing request gets exactly the 500 response. -/
theorem handleWebhook_failure_witness :
    handleWebhook "id2" 9 failReq = [.respond 500 false none none] :=
  handleWebhook_failure_spec "id2" 9 failReq rfl

/-- The ServerStats record of src/shared/types.ts. -/
structure ServerStats where
  totalEvents : Nat
  activeConnections : Nat
  uptime : Nat
  lastEvent : Option Nat
deriving DecidableEq, Repr

/-- The state of WebSocketServer in src/server/websocket.ts: its stats
and the registry of currently connected subscriber sockets that io.emit
reaches, in connection order. -/
structure HubState where
  stats : ServerStats
  connected : List Nat
deriving DecidableEq, Repr

/-- WebSocketServer.broadcastEvent of src/server/websocket.ts: increments
totalEvents, records the event's timestamp as lastEvent, then calls
io.emit, which delivers the event to every currently connected socket;
returns the new state and the list of deliveries. -/
def broadcastEvent (st : HubState) (event : WebhookEvent) :
    HubState × List (Nat × WebhookEvent) :=
  let stats :=
    { st.stats with
      totalEvents := st.stats.totalEvents + 1
      lastEvent := some event.timestamp }
  ({ st with stats := stats }, st.connected.map (fun sid => (sid, event)))

/-- C7: broadcastEvent increments the total-event counter by exactly one,
records the event's timestamp as the last-event timestamp, emits the
event to every currently connected subscriber and to nothing else, and
with zero connected subscribers emits to no one while still incrementing
the counter. -/
theorem broadcastEvent_spec (st : HubState) (event : WebhookEvent) :
    (broadcastEvent st event).1.stats.totalEvents =
      st.stats.totalEvents + 1 ∧
    (broadcastEvent st event).1.stats.lastEvent = some event.timestamp ∧
    (broadcastEvent st event).2 =
      st.connected.map (fun sid => (sid, event)) ∧
    (st.connected = [] → (broadcastEvent st event).2 = []) := by
  refine ⟨rfl, rfl, rfl, fun h => ?_⟩
  simp [broadcastEvent, h]

/-- Witness for C7: broadcasting to a hub with no connected subscribers
emits nothing and still bumps the counter from 3 to 4. -/
theorem broadcastEvent_witness :
    (broadcastEvent ⟨⟨3, 0, 50, none⟩, []⟩ sampleEvent).1.stats.totalEvents
      = 3 + 1 ∧
    (broadcastEvent ⟨⟨3, 0, 50, none⟩, []⟩ sampleEvent).1.stats.lastEvent
      = some sampleEvent.timestamp ∧
    (broadcastEvent ⟨⟨3, 0, 50, none⟩, []⟩ sampleEvent).2 =
      List.map (fun sid => (sid, sampleEvent)) [] ∧
    (broadcastEvent ⟨⟨3, 0, 50, none⟩, []⟩ sampleEvent).2 = [] :=
  ⟨(broadcastEvent_spec ⟨⟨3, 0, 50, none⟩, []⟩ sampleEvent).1,
   (broadcastEvent_spec ⟨⟨3, 0, 50, none⟩, []⟩ sampleEvent).2.1,
   (broadcastEvent_spec ⟨⟨3, 0, 50, none⟩, []⟩ sampleEvent).2.2.1,
   (broadcastEvent_spec ⟨⟨3, 0, 50, none⟩, []⟩ sampleEvent).2.2.2 rfl⟩

/-- The ConnectionStatus record of src/shared/types.ts. -/
structure ConnectionStatus where
  connected : Bool
  lastConnected : Option Nat
  reconnectAttempts : Nat
  error : Option String
deriving DecidableEq, Repr

/-- WebSocketClient.updateStatus of src/server/index.ts: passes a copy of
the status to the status callback when one is registered; the returned
list holds the snapshots handed to the callback. -/
def updateStatus (cbSet : Bool) (st : ConnectionStatus) :
    List ConnectionStatus :=
  if cbSet then [st] else []

/-- The connect handler of WebSocketClient.connect: sets connected,
records lastConnected, resets the attempt counter to zero, clears the
error, then calls updateStatus. -/
def onConnect (cbSet : Bool) (now : Nat) (st : ConnectionStatus) :
    ConnectionStatus × List ConnectionStatus :=
  let st' :=
    { st with
      connected := true
      lastConnected := some now
      reconnectAttempts := 0
      error := none }
  (st', updateStatus cbSet st')

/-- The reconnect handler of WebSocketClient.connect: sets connected,
records lastConnected, sets the attempt counter to the attempt number
reported by the transport, clears the error, then calls updateStatus. -/
def onReconnect (cbSet : Bool) (now : Nat) (attemptNumber : Nat)
    (st : ConnectionStatus) : ConnectionStatus × List ConnectionStatus :=
  let st' :=
    { st with
      connected := true
      lastConnected := some now
      reconnectAttempts := attemptNumber
      error := none }
  (st', updateStatus cbSet st')

/-- C8 counterexample: a successful reconnection at attempt number 1 does
not reset the reconnect attempt counter to zero; the reconnect handler
stores the attempt number itself. -/
theorem onReconnect_counter_counterexample :
    (onReconnect true 7 1 ⟨false, some 2, 1, some "transport close"⟩).1.reconnectAttempts = 1 ∧
    (onReconnect true 7 1 ⟨false, some 2, 1, some "transport close"⟩).1.reconnectAttempts ≠ 0 := by
  refine ⟨rfl, ?_⟩
  decide

/-- C8 amended: on an initial successful connect the session sets
connected, records lastConnected, resets the attempt counter to zero,
clears the error and invokes the status callback; on a successful
reconnection it does the same except that the attempt counter is set to
the transport's reported attempt number (at least 1 on a real
reconnection), not reset to zero. -/
theorem connect_handlers_spec (cbSet : Bool) (now n : Nat)
    (st : ConnectionStatus) :
    ((onConnect cbSet now st).1.connected = true ∧
     (onConnect cbSet now st).1.lastConnected = some now ∧
     (onConnect cbSet now st).1.reconnectAttempts = 0 ∧
     (onConnect cbSet now st).1.error = none ∧
     (cbSet = true →
       (onConnect cbSet now st).2 = [(onConnect cbSet now st).1])) ∧
    ((onReconnect cbSet now n st).1.connected = true ∧
     (onReconnect cbSet now n st).1.lastConnected = some now ∧
     (onReconnect cbSet now n st).1.reconnectAttempts = n ∧
     (onReconnect cbSet now n st).1.error = none ∧
     (cbSet = true →
       (onReconnect cbSet now n st).2 = [(onReconnect cbSet now n st).1])) := by
  refine ⟨⟨rfl, rfl, rfl, rfl, fun h => ?_⟩, rfl, rfl, rfl, rfl, fun h => ?_⟩
  · simp [onConnect, updateStatus, h]
  · simp [onReconnect, updateStatus, h]

/-- Witness for C8's amended theorem: with a registered callback, the
connect handler resets the counter and reports the new status once, and
the reconnect handler stores the attempt number 2. -/
theorem connect_handlers_witness :
    ((onConnect true 11 ⟨false, none, 3, some "e"⟩).1.connected = true ∧
     (onConnect true 11 ⟨false, none, 3, some "e"⟩).1.lastConnected = some 11 ∧
     (onConnect true 11 ⟨false, none, 3, some "e"⟩).1.reconnectAttempts = 0 ∧
     (onConnect true 11 ⟨false, none, 3, some "e"⟩).1.error = none ∧
     (onConnect true 11 ⟨false, none, 3, some "e"⟩).2 =
       [(onConnect true 11 ⟨false, none, 3, some "e"⟩).1]) ∧
    ((onReconnect true 11 2 ⟨false, none, 3, some "e"⟩).1.connected = true ∧
     (onReconnect true 11 2 ⟨false, none, 3, some "e"⟩).1.lastConnected = some 11 ∧
     (onReconnect true 11 2 ⟨false, none, 3, some "e"⟩).1.reconnectAttempts = 2 ∧
     (onReconnect true 11 2 ⟨false, none, 3, some "e"⟩).1.error = none ∧
     (onReconnect true 11 2 ⟨false, none, 3, some "e"⟩).2 =
       [(onReconnect true 11 2 ⟨false, none, 3, some "e"⟩).1]) := by
  have h := connect_handlers_spec true 11 2 ⟨false, none, 3, some "e"⟩
  exact ⟨⟨h.1.1, h.1.2.1, h.1.2.2.1, h.1.2.2.2.1, h.1.2.2.2.2 rfl⟩,
    ⟨h.2.1, h.2.2.1, h.2.2.2.1, h.2.2.2.2.1, h.2.2.2.2.2 rfl⟩⟩

/-- A request whose X-Forwarded-For header exists but is the empty
string, with a known peer address. -/
def emptyFwdReq : Req :=
  { forwardedFor := some ""
    peerIp := some "1.2.3.4"
    userAgent := none
    path := "/github"
    method := "POST"
    headers := []
    body := .json "b" }

/-- C10 counterexample: on a request whose X-Forwarded-For header is
present (with the empty value) the constructed event's ip is the peer
address, not the header value: the peer address is used even though a
forwarded-for header exists, because the JavaScript or-chain treats the
empty string as falsy. -/
theorem event_ip_source_counterexample :
    emptyFwdReq.forwardedFor = some "" ∧
    resolveSource emptyFwdReq.forwardedFor emptyFwdReq.peerIp = "1.2.3.4" ∧
    (∃ ev, (handleWebhook "id3" 7 emptyFwdReq).get? 1 =
        some (.callback ev) ∧ ev.ip = "1.2.3.4" ∧ ev.ip ≠ "") := by
  refine ⟨rfl, by decide, ?_⟩
  refine ⟨createWebhookEvent "id3" 7 "1.2.3.4" "/github" [] (.json "b")
    "POST" "1.2.3.4" none, by decide, rfl, by decide⟩

/-- C10 amended: every event the gateway hands to the callback has its ip
equal to its source, both being the resolved origin; the resolved origin
is the X-Forwarded-For value when that header is present and non-empty,
else the peer address when present and non-empty, else unknown — so the
peer address is only used when the forwarded-for header is absent or
empty. -/
theorem event_ip_source_spec :
    (∀ newId : String, ∀ now : Nat, ∀ req : Req, ∀ ev : WebhookEvent,
      ∀ i : Nat,
      (handleWebhook newId now req).get? i = some (.callback ev) →
        ev.ip = ev.source ∧
        ev.source = resolveSource req.forwardedFor req.peerIp) ∧
    (∀ peerIp : Option String, ∀ s : String, s ≠ "" →
      resolveSource (some s) peerIp = s) ∧
    (∀ forwardedFor : Option String, ∀ p : String,
      (forwardedFor = none ∨ forwardedFor = some "") → p ≠ "" →
      resolveSource forwardedFor (some p) = p) ∧
    (∀ forwardedFor peerIp : Option String,
      (forwardedFor = none ∨ forwardedFor = some "") →
      (peerIp = none ∨ peerIp = some "") →
      resolveSource forwardedFor peerIp = "unknown") := by
  refine ⟨fun newId now req ev i h => ?_, fun peerIp s hs => ?_,
    fun fwd p hf hp => ?_, fun fwd peer hf hp => ?_⟩
  · obtain ⟨-, hev, -⟩ := handleWebhook_callback_elim newId now req ev i h
    subst hev
    exact ⟨rfl, rfl⟩
  · simp [resolveSource, jsOr, hs]
  · rcases hf with hf | hf <;> subst hf <;> simp [resolveSource, jsOr, hp]
  · rcases hf with hf | hf <;> rcases hp with hp | hp <;> subst hf <;>
      subst hp <;> simp [resolveSource, jsOr]

/-- Witness for C10's amended theorem: the event built for demoReq has ip
equal to source, both the non-empty forwarded-for value. -/
theorem event_ip_source_witness :
    demoEv.ip = demoEv.source ∧
    demoEv.source = resolveSource demoReq.forwardedFor demoReq.peerIp :=
  event_ip_source_spec.1 "id1" 5 demoReq demoEv 1 (by decide)

end Anchr
